import Mathlib

/-!
Verification of the CT_RSA batch-GCD analysis engine
(`scripts/analysis/analyze_results.py`, with the ingestion interface of
`scripts/parser/parse_cert.py`).

The Python source is shallowly embedded: machine-independent arbitrary
precision integers are `Nat`/`Int`, the Python `dict` built by
`defaultdict(list)` is an insertion-ordered association list, and the
two early `return` statements of `analyze_rsa_keys` are modelled by an
`Option Report` result.
-/

namespace CTRSA

set_option maxRecDepth 20000

/-- The result type of both batch-GCD functions: the Python
`dict {common_factor: [(n1, n2), ...]}` kept in insertion order. -/
abbrev Dict := List (Nat × List (Nat × Nat))

/-- Appending to `defaultdict(list)`: `common_factors[k].append(v)`.
If the key is present its pair list is extended in place, otherwise a new
key is inserted at the end (Python dicts preserve insertion order). -/
def dictAppend (d : Dict) (k : Nat) (v : Nat × Nat) : Dict :=
  match d with
  | [] => [(k, [v])]
  | (k2, vs) :: rest =>
      if k2 = k then (k2, vs ++ [v]) :: rest else (k2, vs) :: dictAppend rest k v

/-- The pair enumeration of `batch_gcd_simple` (lines 30-35): all
`(moduli[i], moduli[j])` with `i < j`, in the nested-loop order. -/
def upperPairs : List Nat → List (Nat × Nat)
  | [] => []
  | x :: xs => (xs.map (fun y => (x, y))) ++ upperPairs xs

/-- Loop body of `batch_gcd_simple` (lines 36-41): skip equal moduli,
record the pair under its gcd when the gcd exceeds 1. -/
def simpleStep (d : Dict) (p : Nat × Nat) : Dict :=
  if p.1 = p.2 then d
  else if 1 < Nat.gcd p.1 p.2 then dictAppend d (Nat.gcd p.1 p.2) p else d

/-- `batch_gcd_simple(moduli)` (lines 21-43). -/
def batch_gcd_simple (moduli : List Nat) : Dict :=
  (upperPairs moduli).foldl simpleStep []

/-- One level of the product tree (lines 61-66): multiply adjacent
elements pairwise, keeping a trailing odd element as is. -/
def pairUp : List Nat → List Nat
  | x :: y :: rest => (x * y) :: pairUp rest
  | l => l

/-- `build_product_tree(nums)` (lines 56-68), which reduces the list level
by level until one value (the full product) remains.  The recursion is
driven by a fuel argument so that it is structural; `fuel = nums.length`
always suffices because each level at least halves a list of length ≥ 2.
The source never calls it on an empty list (it would not terminate there);
that case is mapped to 0. -/
def buildProductTreeFuel : Nat → List Nat → Nat
  | _, [] => 0
  | _, [x] => x
  | 0, _ :: _ :: _ => 0
  | fuel + 1, x :: y :: rest => buildProductTreeFuel fuel ((x * y) :: pairUp rest)

/-- `build_product_tree(moduli)`: the product of all moduli, computed by
the levelled pairing of the source. -/
def build_product_tree (nums : List Nat) : Nat :=
  buildProductTreeFuel nums.length nums

/-- Inner loop body of `batch_gcd_tree` (lines 90-94): for a flagged
modulus `n` at position `i`, record `(n, m)` under `gcd(n, m)` for every
other position `j` whose modulus shares a factor with `n`.  Note the
source checks only `i != j`, not `n != m`, and does not canonicalize the
pair order. -/
def innerStep (moduli : List Nat) (i : Nat) (n : Nat) (d : Dict) (j : Nat) : Dict :=
  if i = j then d
  else if 1 < Nat.gcd n (moduli.getD j 0) then
    dictAppend d (Nat.gcd n (moduli.getD j 0)) (n, moduli.getD j 0)
  else d

/-- The partner-resolution scan for one flagged modulus (lines 89-94). -/
def treeInner (moduli : List Nat) (i : Nat) (n : Nat) (d : Dict) : Dict :=
  (List.range moduli.length).foldl (innerStep moduli i n) d

/-- `gcd = math.gcd(n, root_product // n if root_product > n else root_product)`
(line 86). -/
def gcdWithRoot (n root : Nat) : Nat :=
  Nat.gcd n (if n < root then root / n else root)

/-- Outer loop body of `batch_gcd_tree` (lines 80-94): compute
`gcdWithRoot` and scan for partners when `1 < gcd < n` (line 88). -/
def treeStep (moduli : List Nat) (root : Nat) (d : Dict) (i : Nat) : Dict :=
  if 1 < gcdWithRoot (moduli.getD i 0) root ∧ gcdWithRoot (moduli.getD i 0) root < moduli.getD i 0 then
    treeInner moduli i (moduli.getD i 0) d
  else d

/-- The tree-mode computation of `batch_gcd_tree` for the case of at
least 100 moduli and no arithmetic overflow (lines 53-96). -/
def treeMain (moduli : List Nat) : Dict :=
  (List.range moduli.length).foldl (treeStep moduli (build_product_tree moduli)) []

/-- `batch_gcd_tree(moduli)` (lines 45-96).  Below 100 moduli it delegates
to `batch_gcd_simple` (lines 50-51).  Python big-integer multiplication
does not raise `OverflowError`, so the normal path is `treeMain`. -/
def batch_gcd_tree (moduli : List Nat) : Dict :=
  if moduli.length < 100 then batch_gcd_simple moduli else treeMain moduli

/-- `batch_gcd_tree` together with its `except OverflowError` handler
(lines 71-75), with the oracle `overflowed` standing for "the arithmetic
backend raised `OverflowError` inside `build_product_tree`".  The second
component collects the warnings the function records; the handler
(`except OverflowError: return batch_gcd_simple(moduli)`) records
nothing, so that component is empty on every path. -/
def batch_gcd_tree_run (moduli : List Nat) (overflowed : Bool) : Dict × List String :=
  if moduli.length < 100 then (batch_gcd_simple moduli, [])
  else if overflowed then (batch_gcd_simple moduli, [])
  else (treeMain moduli, [])

/-- A key is present in the association-list dict. -/
def hasKey (k : Nat) (d : Dict) : Prop := ∃ vs, (k, vs) ∈ d

/-- Membership predicate used to state the CommonFactorGroup invariants:
`P` holds of every `(factor, pair)` entry of the dict. -/
def DictOK (P : Nat → Nat × Nat → Prop) (d : Dict) : Prop :=
  ∀ kv, kv ∈ d → ∀ p, p ∈ kv.2 → P kv.1 p

/-- The invariant `batch_gcd_simple` actually establishes for each
recorded entry: the key is the pair's gcd, it exceeds 1, and the two
moduli differ. -/
def PSimple (k : Nat) (p : Nat × Nat) : Prop :=
  k = Nat.gcd p.1 p.2 ∧ 1 < k ∧ p.1 ≠ p.2

/-- The invariant `batch_gcd_tree` establishes for each recorded entry:
the key is the pair's gcd and it exceeds 1 (the tree mode does not
exclude equal moduli in its partner scan). -/
def PTree (k : Nat) (p : Nat × Nat) : Prop :=
  k = Nat.gcd p.1 p.2 ∧ 1 < k

/-- How many times a pair occurs in a list up to the order of its two
components (the "unordered pair" count of the spec). -/
def unordCount (ps : List (Nat × Nat)) (p : Nat × Nat) : Nat :=
  (ps.filter (fun q => q = p ∨ q = (p.2, p.1))).length

/-! ## Ingestion interface and the analysis report

`analyze_rsa_keys(df)` receives a dataframe produced by
`parse_cert.py`; the columns the analysis reads are `index`, `key_size`,
`modulus_hex` and `modulus_sha256` (`subject` is aggregated but never
reaches the persisted report).  The digest column is whatever string the
upstream parser stored; the analysis never recomputes or cross-checks it. -/

structure RawRecord where
  index : Nat
  key_size : Nat
  modulus_hex : String
  modulus_sha256 : String
deriving DecidableEq, Repr

/-- One hexadecimal digit, as accepted by Python `int(_, 16)`. -/
def hexDigitVal (c : Char) : Option Nat :=
  if '0' ≤ c ∧ c ≤ '9' then some (c.toNat - '0'.toNat)
  else if 'a' ≤ c ∧ c ≤ 'f' then some (c.toNat - 'a'.toNat + 10)
  else if 'A' ≤ c ∧ c ≤ 'F' then some (c.toNat - 'A'.toNat + 10)
  else none

/-- `int(row["modulus_hex"], 16)` (line 170), returning `none` where the
source raises `ValueError`.  The source always produces this field via
`format(n, "x")`, so only plain strings of hex digits are modelled;
Python's additional tolerance for signs, whitespace, underscores and an
`0x` marker is irrelevant here. -/
def decodeHex (s : String) : Option Nat :=
  if s.isEmpty then none
  else s.toList.foldl
    (fun acc c =>
      match acc, hexDigitVal c with
      | some n, some d => some (n * 16 + d)
      | _, _ => none)
    (some 0)

/-- The persisted report of `analyze_rsa_keys` (lines 248-292), flattened:
`analysis_metadata` is `analysis_date`/`analysis_version`, the remaining
fields keep their JSON names section by section.  The `details` values
are kept in insertion order; the source serializes factor keys and
modulus values with `str(...)`, modelled by `toString`.  Ratio fields are
modelled over `ℚ` where the source rounds IEEE doubles to two decimals;
no claim depends on their exact values. -/
structure Report where
  analysis_date : String
  analysis_version : String
  total_certificates_analyzed : Nat
  unique_modulus_count : Nat
  duplicate_modulus_count : Nat
  common_factors_found : Nat
  status : String
  safe_certificates : Int
  unsafe_certificates : Int
  safe_ratio : ℚ
  unsafe_ratio : ℚ
  vulnerable_from_duplicates : Nat
  vulnerable_from_common_factors : Nat
  total_vulnerable : Int
  unique_sizes : List Nat
  size_distribution : List (Nat × Nat)
  total_duplicates : Nat
  duplicate_ratio : ℚ
  unique_modulus_ratio : ℚ
  duplicates_details : List (String × Nat × Nat)
  total_common_factors : Nat
  affected_certificates : Nat
  common_factors_details : List (String × List (String × String))
  revoke_certificates : Bool
  regenerate_keys : Bool
  investigate_root_cause : Bool
deriving DecidableEq, Repr

/-- Distinct elements in order of first occurrence (the value order of
polars `unique`/`group_by(maintain_order=True)`). -/
def distinctInOrder {α : Type} [DecidableEq α] (l : List α) : List α :=
  l.foldl (fun acc s => if s ∈ acc then acc else acc ++ [s]) []

/-- `df["modulus_sha256"].n_unique()` (line 132). -/
def nUnique (l : List String) : Nat := (distinctInOrder l).length

/-- The digest column of the dataframe. -/
def shasOf (df : List RawRecord) : List String :=
  df.map (fun r => r.modulus_sha256)

/-- `unique_moduli` (line 132): distinct digest count. -/
def uniqueModulusCount (df : List RawRecord) : Nat := nUnique (shasOf df)

/-- `duplicates = total_certs - unique_moduli` (line 134). -/
def duplicatesCount (df : List RawRecord) : Nat :=
  df.length - uniqueModulusCount df

/-- The digest groups of `duplicates_df` (lines 143-147): digests with
more than one occurrence, in first-occurrence order, with their counts.
Grouping is purely by the `modulus_sha256` string. -/
def duplicatesGroups (shas : List String) : List (String × Nat) :=
  (distinctInOrder shas).filterMap (fun s =>
    let c := (shas.filter (fun x => x == s)).length
    if 1 < c then some (s, c) else none)

/-- `duplicates_details` (lines 232-245): built only when `duplicates > 0`,
one entry `{modulus_sha256, occurrences, affected_certificates}` per
group.  A function of the digest column alone. -/
def dupDetails (shas : List String) : List (String × Nat × Nat) :=
  if 0 < shas.length - nUnique shas then
    (duplicatesGroups shas).map (fun g => (g.1, g.2, g.2))
  else []

/-- The modulus conversion loop (lines 165-174): records whose
`modulus_hex` raises are skipped with `continue`; nothing counts them. -/
def moduliOf (df : List RawRecord) : List Nat :=
  df.filterMap (fun r => decodeHex r.modulus_hex)

/-- `common_factors = batch_gcd_simple(moduli)` (line 183). -/
def commonFactorsOf (df : List RawRecord) : Dict :=
  batch_gcd_simple (moduliOf df)

/-- `vulnerable_from_factors` (line 188): twice the pair count of every
group, 0 for an empty dict. -/
def vulnerableFromFactors (df : List RawRecord) : Nat :=
  if commonFactorsOf df = [] then 0
  else ((commonFactorsOf df).map (fun kv => kv.2.length * 2)).sum

/-- Total number of recorded common-factor pairs (used to state C10). -/
def pairTotal (df : List RawRecord) : Nat :=
  ((commonFactorsOf df).map (fun kv => kv.2.length)).sum

/-- `safe_certs` (line 192). -/
def safeCerts (df : List RawRecord) : Int :=
  if commonFactorsOf df = [] then (uniqueModulusCount df : Int)
  else (uniqueModulusCount df : Int) - ((commonFactorsOf df).length : Int)

/-- `unsafe_certs = (total_certs - unique_certs) + vulnerable_from_factors`
(line 193). -/
def unsafeCerts (df : List RawRecord) : Int :=
  ((df.length : Int) - (uniqueModulusCount df : Int)) + (vulnerableFromFactors df : Int)

/-- `common_factors_found` (line 257): `len(common_factors) if common_factors else 0`. -/
def commonFactorsFound (df : List RawRecord) : Nat :=
  if commonFactorsOf df = [] then 0 else (commonFactorsOf df).length

/-- `status` (line 258): `"vulnerable" if (common_factors or duplicates > 0) else "safe"`. -/
def statusOf (df : List RawRecord) : String :=
  if commonFactorsOf df ≠ [] ∨ 0 < duplicatesCount df then "vulnerable" else "safe"

/-- `common_factors_details` (lines 204-224): factor and moduli rendered
with `str(...)`, indices deliberately omitted. -/
def cfDetails (cf : Dict) : List (String × List (String × String)) :=
  cf.map (fun kv => (toString kv.1, kv.2.map (fun p => (toString p.1, toString p.2))))

/-- Insertion sort used to model Python `sorted` on the small distinct
key-size list (lines 121-123). -/
def insertSorted (x : Nat) : List Nat → List Nat
  | [] => [x]
  | y :: ys => if x ≤ y then x :: y :: ys else y :: insertSorted x ys

/-- Python `sorted` for `Nat` lists. -/
def sortNat (l : List Nat) : List Nat := l.foldr insertSorted []

/-- `sorted(key_sizes)` (lines 120-123). -/
def keySizesOf (df : List RawRecord) : List Nat :=
  sortNat (distinctInOrder (df.map (fun r => r.key_size)))

/-- `key_size_distribution.distribution` (lines 271-274); the JSON key is
`str(size)`, the count is the filtered dataframe length. -/
def distributionOf (df : List RawRecord) : List (Nat × Nat) :=
  (keySizesOf df).map (fun s => (s, (df.filter (fun r => r.key_size == s)).length))

/-- `common_factors is not None` (lines 288-289): `batch_gcd_simple`
returns a `dict`, which is never `None`, so this test is always true in
the source. -/
def commonFactorsIsNotNone : Bool := true

/-- `round(x, 2)` on the two-decimal ratio values. -/
def round2 (q : ℚ) : ℚ := ((round (q * 100) : Int) : ℚ) / 100

/-- `round((num / total * 100), 2) if total_certs > 0 else 0`
(lines 263-264 and 278-279). -/
def pctRatio (num : Int) (total : Nat) : ℚ :=
  if 0 < total then round2 ((num : ℚ) / (total : ℚ) * 100) else 0

/-- `analyze_rsa_keys(df)` (lines 98-310) as a value-level function: the
printed console output and the JSON file write are side effects carrying
no additional data.  The two degenerate-input `return` statements — empty
dataframe (lines 111-113) and fewer than two convertible moduli
(lines 178-180) — leave the function before any report is built, hence
`none`.  Python's `datetime.now().isoformat()` is the `now` parameter. -/
def analyze_rsa_keys (df : List RawRecord) (now : String) : Option Report :=
  if df.length = 0 then none
  else if (moduliOf df).length < 2 then none
  else some {
    analysis_date := now
    analysis_version := "1.0"
    total_certificates_analyzed := df.length
    unique_modulus_count := uniqueModulusCount df
    duplicate_modulus_count := duplicatesCount df
    common_factors_found := commonFactorsFound df
    status := statusOf df
    safe_certificates := safeCerts df
    unsafe_certificates := unsafeCerts df
    safe_ratio := pctRatio (safeCerts df) df.length
    unsafe_ratio := pctRatio (unsafeCerts df) df.length
    vulnerable_from_duplicates := duplicatesCount df
    vulnerable_from_common_factors := vulnerableFromFactors df
    total_vulnerable := unsafeCerts df
    unique_sizes := keySizesOf df
    size_distribution := distributionOf df
    total_duplicates := duplicatesCount df
    duplicate_ratio := pctRatio (duplicatesCount df : Int) df.length
    unique_modulus_ratio := pctRatio (uniqueModulusCount df : Int) df.length
    duplicates_details := dupDetails (shasOf df)
    total_common_factors := commonFactorsFound df
    affected_certificates := vulnerableFromFactors df
    common_factors_details := cfDetails (commonFactorsOf df)
    revoke_certificates := decide (0 < duplicatesCount df) || commonFactorsIsNotNone
    regenerate_keys := decide (0 < duplicatesCount df) || commonFactorsIsNotNone
    investigate_root_cause := decide (10 < duplicatesCount df) ||
      (decide (commonFactorsOf df ≠ []) && decide (0 < (commonFactorsOf df).length)) }

/-- A report with its `analysis_date` cleared, for comparing two runs up
to the timestamp. -/
def stripDate (r : Report) : Report := { r with analysis_date := "" }

/-- The `duplicates_details` a run reports, `[]` when no report is built. -/
def dupDetailsOf (df : List RawRecord) (t : String) : List (String × Nat × Nat) :=
  ((analyze_rsa_keys df t).map (fun r => r.duplicates_details)).getD []

/-! ## Concrete inputs used by the counterexamples and witnesses -/

/-- 100 moduli (the tree-mode threshold): 6, 10, 15 pairwise share the
factors 2, 3, 5; the 97 padding ones share nothing. -/
def exC1 : List Nat := 6 :: 10 :: 15 :: List.replicate 97 1

/-- Scenario-1 corpus: moduli 15, 21, 35 (hex `f`, `15`, `23`) with
distinct digests. -/
def dfC2 : List RawRecord :=
  [⟨0, 4, "f", "s15"⟩, ⟨1, 4, "15", "s21"⟩, ⟨2, 4, "23", "s35"⟩]

/-- A single-record corpus (modulus 15). -/
def dfOne : List RawRecord := [⟨0, 4, "f", "s15"⟩]

/-- Two records with the same digest string but different modulus values
(6 and 10): the shape a digest collision would take. -/
def dfC4 : List RawRecord := [⟨0, 4, "6", "dd"⟩, ⟨1, 4, "a", "dd"⟩]

/-- Two records with the same digest string and the same modulus 6. -/
def dfC4b : List RawRecord := [⟨0, 4, "6", "dd"⟩, ⟨1, 4, "6", "dd"⟩]

/-- Pairwise-coprime corpus: moduli 17, 19, 23 (hex `11`, `13`, `17`),
no duplicates, no common factors. -/
def dfC6 : List RawRecord :=
  [⟨0, 4, "11", "s17"⟩, ⟨1, 4, "13", "s19"⟩, ⟨2, 4, "17", "s23"⟩]

/-- A record whose `modulus_hex` does not decode. -/
def recBadC8 : RawRecord := ⟨0, 4, "zz", "dd"⟩

/-- Two decodable records (moduli 6 and 10); the first shares its digest
string with `recBadC8`. -/
def restC8 : List RawRecord := [⟨1, 4, "6", "dd"⟩, ⟨2, 4, "a", "sb"⟩]

/-- The corpus with the undecodable record in front. -/
def dfC8 : List RawRecord := recBadC8 :: restC8

/-! ## Helper lemmas -/

/-- The empty dict satisfies every entry invariant. -/
theorem dictOK_nil (P : Nat → Nat × Nat → Prop) : DictOK P [] := by
  intro kv hkv
  simp at hkv

/-- `dictAppend` preserves an entry invariant when the appended entry
satisfies it. -/
theorem dictOK_append {P : Nat → Nat × Nat → Prop} {k : Nat} {v : Nat × Nat}
    (hv : P k v) : ∀ d : Dict, DictOK P d → DictOK P (dictAppend d k v) := by
  intro d
  induction d with
  | nil =>
    intro _ kv hkv p hp
    simp only [dictAppend, List.mem_singleton] at hkv
    subst hkv
    simp only [List.mem_singleton] at hp
    subst hp
    exact hv
  | cons head tail ih =>
    obtain ⟨k2, vs⟩ := head
    intro hd kv hkv p hp
    have htail : DictOK P tail :=
      fun kv2 hkv2 p2 hp2 => hd kv2 (List.mem_cons_of_mem _ hkv2) p2 hp2
    simp only [dictAppend] at hkv
    by_cases hk : k2 = k
    · rw [if_pos hk] at hkv
      rcases List.mem_cons.mp hkv with h1 | h2
      · subst h1
        rcases List.mem_append.mp hp with hvp | hvp
        · exact hd (k2, vs) (List.mem_cons_self _ _) p hvp
        · simp only [List.mem_singleton] at hvp
          show P k2 p
          rw [hvp, hk]
          exact hv
      · exact hd kv (List.mem_cons_of_mem _ h2) p hp
    · rw [if_neg hk] at hkv
      rcases List.mem_cons.mp hkv with h1 | h2
      · subst h1
        exact hd (k2, vs) (List.mem_cons_self _ _) p hp
      · exact ih htail kv h2 p hp

/-- A fold whose step preserves an entry invariant preserves it overall. -/
theorem foldl_dictOK {β : Type} (P : Nat → Nat × Nat → Prop) (step : Dict → β → Dict)
    (hstep : ∀ d b, DictOK P d → DictOK P (step d b)) :
    ∀ (l : List β) (d : Dict), DictOK P d → DictOK P (l.foldl step d) := by
  intro l
  induction l with
  | nil => exact fun d hd => hd
  | cons b rest ih => exact fun d hd => ih (step d b) (hstep d b hd)

/-- The pairwise loop body establishes `PSimple` for what it appends. -/
theorem simpleStep_ok {d : Dict} {p : Nat × Nat} (hd : DictOK PSimple d) :
    DictOK PSimple (simpleStep d p) := by
  unfold simpleStep
  split
  · exact hd
  · split
    · exact dictOK_append ⟨rfl, by assumption, by assumption⟩ d hd
    · exact hd

/-- The tree-mode partner scan establishes `PTree` for what it appends. -/
theorem innerStep_ok {moduli : List Nat} {i n : Nat} {d : Dict} {j : Nat}
    (hd : DictOK PTree d) : DictOK PTree (innerStep moduli i n d j) := by
  unfold innerStep
  split
  · exact hd
  · split
    · exact dictOK_append ⟨rfl, by assumption⟩ d hd
    · exact hd

/-- The tree-mode outer loop body preserves `PTree`. -/
theorem treeStep_ok {moduli : List Nat} {root : Nat} {d : Dict} {i : Nat}
    (hd : DictOK PTree d) : DictOK PTree (treeStep moduli root d i) := by
  unfold treeStep
  split
  · simp only [treeInner]
    exact foldl_dictOK PTree (innerStep moduli i (moduli.getD i 0))
      (fun d2 j h2 => innerStep_ok h2) (List.range moduli.length) d hd
  · exact hd

/-- `batch_gcd_simple` satisfies the `PSimple` entry invariant. -/
theorem batch_gcd_simple_ok (moduli : List Nat) :
    DictOK PSimple (batch_gcd_simple moduli) := by
  simp only [batch_gcd_simple]
  exact foldl_dictOK PSimple simpleStep (fun d p hd => simpleStep_ok hd)
    (upperPairs moduli) [] (dictOK_nil PSimple)

/-- `batch_gcd_tree` satisfies the `PTree` entry invariant. -/
theorem batch_gcd_tree_ok (moduli : List Nat) :
    DictOK PTree (batch_gcd_tree moduli) := by
  simp only [batch_gcd_tree]
  split
  · intro kv hkv p hp
    obtain ⟨h1, h2, _⟩ := batch_gcd_simple_ok moduli kv hkv p hp
    exact ⟨h1, h2⟩
  · simp only [treeMain]
    exact foldl_dictOK PTree (treeStep moduli (build_product_tree moduli))
      (fun d i hd => treeStep_ok hd) (List.range moduli.length) [] (dictOK_nil PTree)

/-- Keys already present survive a `dictAppend`. -/
theorem hasKey_dictAppend {k2 : Nat} {k : Nat} {v : Nat × Nat} :
    ∀ d : Dict, hasKey k2 d → hasKey k2 (dictAppend d k v) := by
  intro d
  induction d with
  | nil =>
    rintro ⟨vs, hvs⟩
    simp at hvs
  | cons head tail ih =>
    obtain ⟨kh, vsh⟩ := head
    rintro ⟨vs, hvs⟩
    simp only [dictAppend]
    by_cases hk : kh = k
    · rw [if_pos hk]
      rcases List.mem_cons.mp hvs with h1 | h2
      · injection h1 with hA hB
        subst hA
        exact ⟨vsh ++ [v], List.mem_cons_self _ _⟩
      · exact ⟨vs, List.mem_cons_of_mem _ h2⟩
    · rw [if_neg hk]
      rcases List.mem_cons.mp hvs with h1 | h2
      · injection h1 with hA hB
        subst hA
        exact ⟨vsh, List.mem_cons_self _ _⟩
      · obtain ⟨vs2, hvs2⟩ := ih ⟨vs, h2⟩
        exact ⟨vs2, List.mem_cons_of_mem _ hvs2⟩

/-- Keys already present survive a pairwise loop step. -/
theorem hasKey_simpleStep {k2 : Nat} {d : Dict} {p : Nat × Nat}
    (h : hasKey k2 d) : hasKey k2 (simpleStep d p) := by
  unfold simpleStep
  split
  · exact h
  · split
    · exact hasKey_dictAppend d h
    · exact h

/-- Keys already present survive the whole pairwise fold. -/
theorem hasKey_foldl {k2 : Nat} :
    ∀ (l : List (Nat × Nat)) (d : Dict), hasKey k2 d → hasKey k2 (l.foldl simpleStep d) := by
  intro l
  induction l with
  | nil => exact fun d h => h
  | cons p rest ih => exact fun d h => ih (simpleStep d p) (hasKey_simpleStep h)

/-- Summing the doubled pair counts is twice the summed pair counts. -/
theorem sum_map_double (l : Dict) :
    (l.map (fun kv => kv.2.length * 2)).sum = 2 * (l.map (fun kv => kv.2.length)).sum := by
  induction l with
  | nil => rfl
  | cons kv rest ih =>
    simp only [List.map_cons, List.sum_cons, ih]
    ring

/-- The unsafe-certificate count in closed form: duplicates plus twice
the recorded common-factor pairs. -/
theorem unsafeCerts_eq (df : List RawRecord) :
    unsafeCerts df =
      ((df.length : Int) - (uniqueModulusCount df : Int)) + 2 * (pairTotal df : Int) := by
  unfold unsafeCerts vulnerableFromFactors pairTotal
  by_cases h : commonFactorsOf df = []
  · simp [h]
  · rw [if_neg h, sum_map_double]
    push_cast
    ring

/-! ## C1 — pairwise vs tree mode -/

/-- C1 counterexample: on the 100-modulus corpus `exC1` the tree mode
returns an empty mapping (every flagged leaf has `gcd = n`, failing the
`gcd < n` test, because 6, 10 and 15 each divide the product of the
others), while the pairwise mode records the factor 2 (and also 3 and 5).
The two modes therefore do not return the identical mapping. -/
theorem c1_counterexample :
    batch_gcd_tree exC1 = [] ∧ hasKey 2 (batch_gcd_simple exC1) := by
  constructor
  · decide
  · show hasKey 2 (List.foldl simpleStep [] (upperPairs exC1))
    have hu : upperPairs exC1 =
        (6, 10) :: (((15 :: List.replicate 97 1).map (fun y => ((6 : Nat), y))) ++
          upperPairs (10 :: 15 :: List.replicate 97 1)) := rfl
    rw [hu, List.foldl_cons]
    exact hasKey_foldl _ (simpleStep [] (6, 10)) ⟨[(6, 10)], by decide⟩

/-- C1 (amended): the two modes agree on every list of fewer than 100
moduli, where `batch_gcd_tree` delegates to `batch_gcd_simple`
(lines 50-51); at 100 moduli and above they can differ. -/
theorem c1_amended (moduli : List Nat) (h : moduli.length < 100) :
    batch_gcd_tree moduli = batch_gcd_simple moduli := by
  simp [batch_gcd_tree, h]

/-- C1 witness: the amended agreement at the concrete corpus `[15, 21, 35]`. -/
theorem c1_amended_witness :
    (([15, 21, 35] : List Nat).length < 100) ∧
      batch_gcd_tree [15, 21, 35] = batch_gcd_simple [15, 21, 35] :=
  ⟨by decide, c1_amended [15, 21, 35] (by decide)⟩

/-! ## C5 — overflow fallback -/

/-- C5 counterexample: when the overflow handler fires on the 100-modulus
corpus `exC1`, the engine does return exactly the pairwise findings, but
it records nothing at all — in particular no `ArithmeticOverflow`
warning (the `except OverflowError` branch, lines 73-75, is a bare
`return batch_gcd_simple(moduli)`). -/
theorem c5_counterexample :
    (batch_gcd_tree_run exC1 true).1 = batch_gcd_simple exC1 ∧
      decide ("ArithmeticOverflow" ∈ (batch_gcd_tree_run exC1 true).2) = false := by
  have h : batch_gcd_tree_run exC1 true = (batch_gcd_simple exC1, []) := by
    unfold batch_gcd_tree_run
    rw [if_neg (by decide : ¬ (exC1.length < 100)), if_pos rfl]
  constructor
  · rw [h]
  · rw [h]
    rfl

/-- C5 (amended): on overflow the tree mode silently falls back to the
pairwise mode: it returns exactly `batch_gcd_simple`'s findings, does not
fail the run, and records no warning whatsoever. -/
theorem c5_amended (moduli : List Nat) :
    (batch_gcd_tree_run moduli true).1 = batch_gcd_simple moduli ∧
      (batch_gcd_tree_run moduli true).2 = [] := by
  unfold batch_gcd_tree_run
  by_cases h : moduli.length < 100
  · rw [if_pos h]
    exact ⟨rfl, rfl⟩
  · rw [if_neg h]
    exact ⟨rfl, rfl⟩

/-! ## C7 — CommonFactorGroup invariants -/

/-- C7 counterexample: on the moduli `[3, 15, 3]` the pairwise mode
records `{3: [(3, 15), (15, 3)]}`: the factor 3 is not a proper divisor
of the modulus 3 (`factor < modulus` fails), and the unordered pair
{3, 15} appears twice under the same gcd in one detection pass. -/
theorem c7_counterexample :
    decide (∀ kv ∈ batch_gcd_simple [3, 15, 3], ∀ p ∈ kv.2,
        (1 < kv.1 ∧ kv.1 < p.1 ∧ kv.1 < p.2 ∧ kv.1 = Nat.gcd p.1 p.2) ∧
          unordCount kv.2 p ≤ 1) = false := by
  rfl

/-- C7 (amended): every entry either mode records has its factor equal to
the gcd of the recorded pair and greater than 1, and the pairwise mode
additionally never records a pair of equal moduli; but `factor < modulus`
and the per-gcd uniqueness of unordered pairs do not hold in general. -/
theorem c7_amended (moduli : List Nat) :
    (∀ kv ∈ batch_gcd_simple moduli, ∀ p ∈ kv.2,
        kv.1 = Nat.gcd p.1 p.2 ∧ 1 < kv.1 ∧ p.1 ≠ p.2) ∧
    (∀ kv ∈ batch_gcd_tree moduli, ∀ p ∈ kv.2,
        kv.1 = Nat.gcd p.1 p.2 ∧ 1 < kv.1) := by
  exact ⟨fun kv hkv p hp => batch_gcd_simple_ok moduli kv hkv p hp,
    fun kv hkv p hp => batch_gcd_tree_ok moduli kv hkv p hp⟩

/-- C7 witness: the amended invariant instantiated on `[6, 10, 15]` at
the recorded entry `{2: [(6, 10)]}`. -/
theorem c7_amended_witness :
    ((2 : Nat), [((6 : Nat), (10 : Nat))]) ∈ batch_gcd_simple [6, 10, 15] ∧
      ((2 : Nat) = Nat.gcd 6 10 ∧ 1 < 2 ∧ (6 : Nat) ≠ 10) :=
  ⟨by decide, (c7_amended [6, 10, 15]).1 (2, [(6, 10)]) (by decide) (6, 10) (by decide)⟩

/-! ## C2 — scenario [15, 21, 35] -/

/-- C2 counterexample: on the scenario-1 corpus the report's
`total_vulnerable` is 6, not 3 — `unsafe_certs` adds 2 per recorded
common-factor pair (line 188 and 193), so each of the three records is
counted once per pair it appears in, not once overall. -/
theorem c2_counterexample :
    (analyze_rsa_keys dfC2 "d").map (fun r => r.total_vulnerable) = some 6 ∧
      decide ((6 : Int) = 3) = false := by
  exact ⟨rfl, by decide⟩

/-- C2 (amended): on moduli `[15, 21, 35]` the analysis reports exactly
the three common-factor groups `{3: [(15,21)]}`, `{5: [(15,35)]}`,
`{7: [(21,35)]}`, zero duplicates, and `total_vulnerable = 6`, since
`total_vulnerable` counts each record once per common-factor pair it
appears in (two per pair), not once per distinct vulnerable record. -/
theorem c2_amended :
    (analyze_rsa_keys dfC2 "d").map (fun r =>
        (r.common_factors_details, r.common_factors_found,
         r.duplicate_modulus_count, r.total_vulnerable)) =
      some ([("3", [("15", "21")]), ("5", [("15", "35")]), ("7", [("21", "35")])],
        3, 0, 6) := by
  rfl

/-! ## C3 — degenerate inputs N = 0 and N = 1 -/

/-- C3 counterexample: with zero records, and likewise with one record,
`analyze_rsa_keys` returns early (lines 111-113 and 178-180) and no
report exists — in particular no report with `status = "safe"`. -/
theorem c3_counterexample :
    analyze_rsa_keys ([] : List RawRecord) "d" = none ∧
      analyze_rsa_keys dfOne "d" = none := by
  exact ⟨rfl, rfl⟩

/-- C3 (amended): with at most one convertible modulus the analysis never
fails, but it returns before any report is built, so no report — safe or
otherwise — is produced. -/
theorem c3_amended (df : List RawRecord) (t : String)
    (h : (moduliOf df).length ≤ 1) : analyze_rsa_keys df t = none := by
  by_cases h0 : df.length = 0
  · simp [analyze_rsa_keys, h0]
  · have h1 : (moduliOf df).length < 2 := by omega
    simp [analyze_rsa_keys, h0, h1]

/-- C3 witness: the amended early-return at the one-record corpus. -/
theorem c3_amended_witness :
    (moduliOf dfOne).length ≤ 1 ∧ analyze_rsa_keys dfOne "d2" = none :=
  ⟨by decide, c3_amended dfOne "d2" (by decide)⟩

/-! ## C4 — duplicate grouping and digest collisions -/

/-- C4 counterexample: `dfC4` has two records with the same digest string
but different modulus values (6 and 10); the analysis reports them as a
duplicate group without any big-integer comparison (lines 131-147 group
purely by `modulus_sha256`), so digest equality is the ground truth. -/
theorem c4_counterexample :
    decide (∀ g ∈ dupDetailsOf dfC4 "t", ∀ r1 ∈ dfC4, ∀ r2 ∈ dfC4,
        r1.modulus_sha256 = g.1 → r2.modulus_sha256 = g.1 →
          decodeHex r1.modulus_hex = decodeHex r2.modulus_hex) = false := by
  rfl

/-- C4 (amended): duplicate grouping is a function of the digest column
alone — two corpora with the same digest sequence report the same
duplicate details regardless of their modulus values; members are never
re-compared as integers. -/
theorem c4_amended (df1 df2 : List RawRecord) (t1 t2 : String)
    (h1 : (analyze_rsa_keys df1 t1).isSome = true)
    (h2 : (analyze_rsa_keys df2 t2).isSome = true)
    (hs : shasOf df1 = shasOf df2) :
    (analyze_rsa_keys df1 t1).map (fun r => r.duplicates_details) =
      (analyze_rsa_keys df2 t2).map (fun r => r.duplicates_details) := by
  by_cases h10 : df1.length = 0
  · simp [analyze_rsa_keys, h10] at h1
  · by_cases h11 : (moduliOf df1).length < 2
    · simp [analyze_rsa_keys, h10, h11] at h1
    · by_cases h20 : df2.length = 0
      · simp [analyze_rsa_keys, h20] at h2
      · by_cases h21 : (moduliOf df2).length < 2
        · simp [analyze_rsa_keys, h20, h21] at h2
        · simp only [analyze_rsa_keys, if_neg h10, if_neg h11, if_neg h20,
            if_neg h21, Option.map_some']
          rw [hs]

/-- C4 witness: the amended digest-only invariance applied to `dfC4` and
`dfC4b`, which share the digest column but differ in modulus values. -/
theorem c4_amended_witness :
    (analyze_rsa_keys dfC4 "t").isSome = true ∧
      (analyze_rsa_keys dfC4b "t").isSome = true ∧
      shasOf dfC4 = shasOf dfC4b ∧
      (analyze_rsa_keys dfC4 "t").map (fun r => r.duplicates_details) =
        (analyze_rsa_keys dfC4b "t").map (fun r => r.duplicates_details) :=
  ⟨by rfl, by rfl, by rfl, c4_amended dfC4 dfC4b "t" "t" (by rfl) (by rfl) (by rfl)⟩

/-! ## C6 — recommendation flags -/

/-- C6: on the pairwise-coprime corpus `[17, 19, 23]` the report has zero
duplicates, zero common-factor groups and `status = "safe"`, yet
`revoke_certificates` and `regenerate_keys` are `true`: line 288 tests
`common_factors is not None`, which always holds for a `dict`, instead of
dict truthiness as the neighbouring `status` and `investigate_root_cause`
computations do. -/
theorem c6_code_bug :
    (analyze_rsa_keys dfC6 "t").map (fun r =>
        (r.revoke_certificates, r.regenerate_keys, r.investigate_root_cause,
         r.duplicate_modulus_count, r.common_factors_found, r.status)) =
      some (true, true, false, 0, 0, "safe") := by
  rfl

/-! ## C8 — undecodable modulus records -/

/-- C8 counterexample: the corpus `dfC8` carries a record whose
`modulus_hex` does not decode; the record is not excluded from the
analysis — it still counts in `total_certificates_analyzed` and its
digest still produces the duplicate group `("dd", 2)`, which disappears
when the record is removed.  No error count exists anywhere. -/
theorem c8_counterexample :
    decodeHex recBadC8.modulus_hex = none ∧
      (analyze_rsa_keys dfC8 "t").map (fun r =>
          (r.total_certificates_analyzed, r.duplicate_modulus_count, r.duplicates_details)) =
        some (3, 1, [("dd", 2, 2)]) ∧
      (analyze_rsa_keys restC8 "t").map (fun r => r.duplicates_details) = some [] := by
  exact ⟨rfl, rfl, rfl⟩

/-- C8 (amended): a record whose modulus fails to decode is skipped by
the batch-GCD phase with `continue` — the remaining records are still
processed and the run never aborts — but it is not counted as an error
(no counter exists) and it still participates in the certificate total
and the digest-based duplicate statistics. -/
theorem c8_amended :
    (∀ df t, 2 ≤ (moduliOf df).length → (analyze_rsa_keys df t).isSome = true) ∧
    (∀ df t, (analyze_rsa_keys df t).map (fun r =>
          (r.common_factors_details, r.total_certificates_analyzed)) =
        (analyze_rsa_keys df t).map (fun _ =>
          (cfDetails (batch_gcd_simple (moduliOf df)), df.length))) ∧
    (∀ b rest, decodeHex b.modulus_hex = none →
        moduliOf (b :: rest) = moduliOf rest) := by
  refine ⟨?_, ?_, ?_⟩
  · intro df t h
    by_cases h0 : df.length = 0
    · exfalso
      have hdf : df = [] := List.length_eq_zero.mp h0
      subst hdf
      simp [moduliOf] at h
    · by_cases h1 : (moduliOf df).length < 2
      · omega
      · simp [analyze_rsa_keys, h0, h1]
  · intro df t
    by_cases h0 : df.length = 0
    · simp [analyze_rsa_keys, h0]
    · by_cases h1 : (moduliOf df).length < 2
      · simp [analyze_rsa_keys, h0, h1]
      · simp [analyze_rsa_keys, h0, h1, commonFactorsOf]
  · intro b rest h
    simp [moduliOf, List.filterMap_cons, h]

/-- C8 witness: the amended behaviour at the concrete corpus `dfC8`: the
run completes, and dropping the undecodable head record leaves the
converted moduli unchanged. -/
theorem c8_amended_witness :
    (2 ≤ (moduliOf dfC8).length ∧ (analyze_rsa_keys dfC8 "t").isSome = true) ∧
      (decodeHex recBadC8.modulus_hex = none ∧ moduliOf (recBadC8 :: restC8) = moduliOf restC8) :=
  ⟨⟨by decide, c8_amended.1 dfC8 "t" (by decide)⟩,
    ⟨by rfl, c8_amended.2.2 recBadC8 restC8 (by rfl)⟩⟩

/-! ## C9 — determinism up to the timestamp -/

/-- C9: two runs of the analysis on the same records differ at most in
the `analysis_date` metadata field: every other report field is a pure
function of the input records. -/
theorem c9_determinism (df : List RawRecord) (t1 t2 : String) :
    (analyze_rsa_keys df t1).map stripDate = (analyze_rsa_keys df t2).map stripDate := by
  by_cases h0 : df.length = 0
  · simp [analyze_rsa_keys, h0]
  · by_cases h1 : (moduliOf df).length < 2
    · simp [analyze_rsa_keys, h0, h1]
    · simp [analyze_rsa_keys, h0, h1, stripDate]

/-! ## C10 — the unsafe-certificate identity -/

/-- C10: in every produced report `total_vulnerable` equals
`unsafe_certificates`, both equal (total certificates − unique moduli) +
2 · (recorded common-factor pairs), and the value is not bounded by
`total_certificates_analyzed`: the scenario-1 corpus of 3 certificates
reports 6. -/
theorem c10_invariants :
    (∀ df t, (analyze_rsa_keys df t).map (fun r =>
          decide (r.total_vulnerable = r.unsafe_certificates ∧
            r.unsafe_certificates =
              ((df.length : Int) - (uniqueModulusCount df : Int)) + 2 * (pairTotal df : Int))) =
        (analyze_rsa_keys df t).map (fun _ => true)) ∧
    (analyze_rsa_keys dfC2 "u").map (fun r =>
        decide ((r.total_certificates_analyzed : Int) < r.total_vulnerable)) = some true := by
  constructor
  · intro df t
    by_cases h0 : df.length = 0
    · simp [analyze_rsa_keys, h0]
    · by_cases h1 : (moduliOf df).length < 2
      · simp [analyze_rsa_keys, h0, h1]
      · simp [analyze_rsa_keys, h0, h1, unsafeCerts_eq]
  · rfl

end CTRSA
